import Mathlib

/-!
# Verification of the Serena relay core (`src/relay.py`)

Shallow embedding of the request-forwarding and streaming-with-keepalive
subsystem of the relay.  Python dicts over string keys are modelled as
association lists with Python-dict update semantics (`dictInsert` updates in
place if the key exists, else appends); decoded JSON values are the inductive
`JsonVal`; the stateful keepalive generator is a step function on an explicit
state type.  Definitions are translated from `src/relay.py`; the line numbers
cited in each doc comment point into that file.
-/

/-! ## Data model -/

/-- A decoded JSON value, as produced by Python's `json.loads` /
`response.json()`.  Objects keep their fields as an association list in
insertion order (Python dicts from `json.loads` have unique string keys).
Numbers are modelled as integers, which covers every literal the claims
touch. -/
inductive JsonVal : Type where
  | null : JsonVal
  | bool : Bool → JsonVal
  | num : Int → JsonVal
  | str : String → JsonVal
  | arr : List JsonVal → JsonVal
  | obj : List (String × JsonVal) → JsonVal

/-- Python truthiness of a decoded JSON value, used by
`content if content else ...` on line 426 of `relay.py`:
`None`, `False`, `0`, the empty string, the empty list and the empty dict
are falsy. -/
def JsonVal.truthy : JsonVal → Bool
  | .null => false
  | .bool b => b
  | .num n => n != 0
  | .str s => s != ""
  | .arr xs => !xs.isEmpty
  | .obj fs => !fs.isEmpty

/-- Python dict membership test `k in d` for a string-keyed dict. -/
def dictContains (d : List (String × String)) (k : String) : Bool :=
  d.any (fun p => p.1 == k)

/-- Python dict lookup `d.get(k)` for a string-keyed dict. -/
def dictLookup (d : List (String × String)) (k : String) : Option String :=
  List.lookup k d

/-- Python dict assignment `d[k] = v`: update the entry in place when the key
is present (insertion order preserved), append a new entry otherwise. -/
def dictInsert (d : List (String × String)) (k v : String) : List (String × String) :=
  if d.any (fun p => p.1 == k) then
    d.map (fun p => if p.1 == k then (k, v) else p)
  else
    d ++ [(k, v)]

/-- Python `d.pop(k, None)`: remove the entry with key `k` when present. -/
def dictPop (d : List (String × String)) (k : String) : List (String × String) :=
  d.filter (fun p => p.1 != k)

/-- ASCII lowercase of one character (kernel-reducible, unlike
`Char.toLower`). -/
def charLower (c : Char) : Char :=
  if c.toNat ≥ 65 && c.toNat ≤ 90 then Char.ofNat (c.toNat + 32) else c

/-- ASCII lowercase of a string; two header names are the same HTTP header
exactly when their `strLower` images agree. -/
def strLower (s : String) : String := String.mk (s.data.map charLower)

/-! ## Header sanitizer and streaming classifier -/

/-- Header sanitization, `relay.py` lines 350-359: starting from
`dict(request.headers.items())`, pop `authorization` and `Authorization`,
then default `content-type` to `application/json` if absent. -/
def sanitizeHeaders (headers : List (String × String)) : List (String × String) :=
  let h1 := dictPop headers "authorization"
  let h2 := dictPop h1 "Authorization"
  if dictContains h2 "content-type" then h2
  else dictInsert h2 "content-type" "application/json"

/-- The streaming classifier, `relay.py` lines 365-373.  The argument is the
result of `json.loads(body)` (`none` when parsing raised).  The code runs
`if "function_call" in body_json and body_json["function_call"].get("name") == "search_code"`
inside `try ... except: pass`, so every shape that would raise in Python
(non-dict top level, non-dict `function_call` value) falls through to
non-streaming, and a `name` that is absent or not the string `search_code`
compares unequal. -/
def classify (parsed : Option JsonVal) : Bool :=
  match parsed with
  | some (JsonVal.obj fields) =>
      match List.lookup "function_call" fields with
      | some (JsonVal.obj fc) =>
          match List.lookup "name" fc with
          | some (JsonVal.str s) => s == "search_code"
          | _ => false
      | _ => false
  | _ => false

/-! ## Routing -/

/-- Configuration read from the environment: `UPSTREAM_URL` (line 28) and
`SERENA_PASSWORD` (line 376). -/
structure Config : Type where
  upstreamUrl : String
  serenaPassword : Option String

/-- Line 376: `auth = ("serena", os.environ.get("SERENA_PASSWORD", "password123"))`. -/
def authPair (cfg : Config) : String × String :=
  ("serena", cfg.serenaPassword.getD "password123")

/-- An inbound request as the `proxy` handler sees it (lines 340-351): the
path parameter, the header mapping from `dict(request.headers.items())`
(ASGI delivers header names lowercased), the raw body bytes, plus request
attributes the handler never reads, represented by the client address. -/
structure InboundRequest : Type where
  endpoint : String
  headers : List (String × String)
  body : List Nat
  clientAddr : String

/-- The outbound routing decision computed by lines 340-376 before the
upstream call is issued: target URL, sanitized header mapping, basic-auth
pair, and streaming classification. -/
structure RouteDecision : Type where
  url : String
  headers : List (String × String)
  auth : String × String
  isStreaming : Bool
deriving DecidableEq

/-- Lines 340-376 of the `proxy` handler as a pure routing function.
`parse` stands for `json.loads` on the raw body bytes (`none` when it
raises); it is a parameter because the JSON grammar itself is external to
the relay.  The URL is `f"{UPSTREAM_URL}/{endpoint}"` (line 362). -/
def route (parse : List Nat → Option JsonVal) (cfg : Config) (r : InboundRequest) :
    RouteDecision :=
  { url := cfg.upstreamUrl ++ "/" ++ r.endpoint
    headers := sanitizeHeaders r.headers
    auth := authPair cfg
    isStreaming := classify (parse r.body) }

/-! ## Response assembly -/

/-- Outcome of the outbound non-streaming upstream call as the handler
observes it: a response (status code, `dict(response.headers.items())` —
httpx presents header keys lowercased — the result of `response.json()` with
`none` when it raises, and `response.text`), or an `httpx.RequestError`, or
any other exception, each carrying its description string. -/
inductive UpstreamOutcome : Type where
  | success : Nat → List (String × String) → Option JsonVal → String → UpstreamOutcome
  | transportError : String → UpstreamOutcome
  | unexpectedError : String → UpstreamOutcome

/-- A buffered relayed response: status, decoded JSON body and header
mapping handed to `JSONResponse`. -/
structure RelayedResponse : Type where
  status : Nat
  bodyJson : JsonVal
  headers : List (String × String)

/-- Lines 392-394 / 421-423: the two Python dict assignments forcing the
CORS headers onto the response header mapping. -/
def forceCors (h : List (String × String)) : List (String × String) :=
  dictInsert (dictInsert h "Access-Control-Allow-Origin" "*")
    "Access-Control-Allow-Credentials" "false"

/-- The non-streaming branch, lines 403-429: decode the body with
`response.json()`, on failure wrap `response.text` as `raw_response`,
coalesce falsy content to an empty dict (`content if content else ...`,
line 426), mirror the upstream status and force the CORS headers. -/
def relayNonStreaming (status : Nat) (upHeaders : List (String × String))
    (parsed : Option JsonVal) (text : String) : RelayedResponse :=
  let content := match parsed with
    | some v => v
    | none => JsonVal.obj [("raw_response", JsonVal.str text)]
  { status := status
    bodyJson := if content.truthy then content else JsonVal.obj []
    headers := forceCors upHeaders }

/-- The buffered result of the `proxy` handler as a function of the upstream
outcome: the non-streaming success branch (lines 403-429), the
`except httpx.RequestError` branch (lines 430-439) and the
`except Exception` branch (lines 440-449).  Totality of this function is the
shallow-embedding statement that no exception escapes the handler. -/
def proxyResult : UpstreamOutcome → RelayedResponse
  | UpstreamOutcome.success s h p t => relayNonStreaming s h p t
  | UpstreamOutcome.transportError m =>
      { status := 500
        bodyJson := JsonVal.obj [("error", JsonVal.str ("Error forwarding request: " ++ m))]
        headers := [("Access-Control-Allow-Origin", "*"),
                    ("Access-Control-Allow-Credentials", "false")] }
  | UpstreamOutcome.unexpectedError m =>
      { status := 500
        bodyJson := JsonVal.obj [("error", JsonVal.str ("Unexpected error: " ++ m))]
        headers := [("Access-Control-Allow-Origin", "*"),
                    ("Access-Control-Allow-Credentials", "false")] }

/-- Head of the streaming branch's response, lines 391-402: status mirrors
upstream, headers are the upstream mapping with the CORS pair forced, media
type is upstream's `content-type` defaulted to `application/json`. -/
structure StreamingHead : Type where
  status : Nat
  headers : List (String × String)
  mediaType : String

/-- Lines 391-402 as a pure function of the streaming upstream response
head. -/
def relayStreamingHead (status : Nat) (upHeaders : List (String × String)) :
    StreamingHead :=
  { status := status
    headers := forceCors upHeaders
    mediaType := (dictLookup upHeaders "content-type").getD "application/json" }

/-! ## Keepalive generator -/

/-- `KEEP_ALIVE_INTERVAL = 10` seconds, `relay.py` line 30. -/
def KEEP_ALIVE_INTERVAL : Nat := 10

/-- The single filler byte `b"\n"` yielded as keep-alive, line 333. -/
def newlineChunk : List Nat := [10]

/-- An observable event of the outbound byte stream produced by
`stream_with_keepalive`: yielding a chunk of bytes to the client, or
suspending in `asyncio.sleep` for a number of seconds. -/
inductive StreamEvent : Type where
  | chunk : List Nat → StreamEvent
  | sleep : Nat → StreamEvent
deriving DecidableEq

/-- Generator state of `stream_with_keepalive` (lines 324-338): either still
draining the upstream chunks (carrying those not yet yielded), or inside the
keepalive loop about to yield the filler byte, or about to sleep. -/
inductive KAState : Type where
  | forwarding : List (List Nat) → KAState
  | fillerDue : KAState
  | sleepDue : KAState

/-- One step of `stream_with_keepalive`: the next observable event and the
successor state.  The `async for` loop (lines 327-328) yields each upstream
chunk in order; on exhaustion, `while True: yield b"\n"; await asyncio.sleep(...)`
(lines 331-334) alternates the filler byte and the fixed sleep forever. -/
def kaStep : KAState → StreamEvent × KAState
  | KAState.forwarding (c :: rest) => (StreamEvent.chunk c, KAState.forwarding rest)
  | KAState.forwarding [] => (StreamEvent.chunk newlineChunk, KAState.sleepDue)
  | KAState.sleepDue => (StreamEvent.sleep KEEP_ALIVE_INTERVAL, KAState.fillerDue)
  | KAState.fillerDue => (StreamEvent.chunk newlineChunk, KAState.sleepDue)

/-- The i-th observable event of the generator started in state `s`.  The
generator never terminates, so the event sequence is total. -/
def kaEvents (s : KAState) : Nat → StreamEvent
  | 0 => (kaStep s).1
  | n + 1 => kaEvents (kaStep s).2 n

/-! ## Resource scoping of the streaming branch -/

/-- Resource events of the streaming branch (lines 379-402) in the order
Python executes them: `async with httpx.AsyncClient(...)` (line 379) opens
the client; `client.post(...)` (line 382) issues the upstream call; the
`return StreamingResponse(...)` statement (line 397) leaves the `async with`
block, which runs the client's `__aexit__` and closes the client and its
connections; only after `proxy` has returned does the server framework
iterate `stream_with_keepalive(response.aiter_bytes())` to send the body to
the client. -/
inductive ResEvent : Type where
  | openClient : ResEvent
  | postUpstream : ResEvent
  | closeClient : ResEvent
  | consumeBody : ResEvent
deriving DecidableEq

/-- The streaming branch's resource events in program order (see
`ResEvent`). -/
def streamingPathTrace : List ResEvent :=
  [ResEvent.openClient, ResEvent.postUpstream, ResEvent.closeClient,
   ResEvent.consumeBody]

/-- A request body that classifies as streaming: the `search_code` example
from the repository's own schema (lines 93-102). -/
def searchCodeBody : JsonVal :=
  JsonVal.obj [("function_call", JsonVal.obj
    [("name", JsonVal.str "search_code"), ("parameters", JsonVal.obj [])])]

/-! ## Association-list lemmas for the Python dict operations -/

theorem mem_dictPop {d : List (String × String)} {k : String} {kv : String × String} :
    kv ∈ dictPop d k ↔ kv ∈ d ∧ kv.1 ≠ k := by
  simp [dictPop, List.mem_filter]

theorem dictContains_dictPop_false {d : List (String × String)} {k k2 : String}
    (h : dictContains d k2 = false) : dictContains (dictPop d k) k2 = false := by
  cases hb : dictContains (dictPop d k) k2 with
  | false => rfl
  | true =>
    exfalso
    rcases List.any_eq_true.mp hb with ⟨x, hx, hpx⟩
    have hxd : x ∈ d := (List.mem_filter.mp hx).1
    have : dictContains d k2 = true := List.any_eq_true.mpr ⟨x, hxd, hpx⟩
    rw [h] at this
    exact Bool.false_ne_true this

theorem dictInsert_of_not_contains {d : List (String × String)} {k v : String}
    (h : dictContains d k = false) : dictInsert d k v = d ++ [(k, v)] := by
  unfold dictInsert
  rw [show (d.any fun p => p.1 == k) = false from h]
  simp

theorem dictLookup_append_self {d : List (String × String)} {k v : String}
    (h : dictContains d k = false) : dictLookup (d ++ [(k, v)]) k = some v := by
  induction d with
  | nil => simp [dictLookup, List.lookup]
  | cons p rest ih =>
    rcases p with ⟨a, b⟩
    simp only [dictContains, List.any_cons, Bool.or_eq_false_iff, beq_eq_false_iff_ne] at h
    have hka : (k == a) = false := by
      exact beq_eq_false_iff_ne.mpr (fun he => h.1 (he ▸ rfl))
    simp only [dictLookup, List.cons_append, List.lookup, hka]
    exact ih h.2

/-- Every entry of the sanitized mapping either came from the inbound
mapping with a key distinct from both popped spellings, or is the defaulted
content-type entry. -/
theorem mem_sanitizeHeaders {headers : List (String × String)} {kv : String × String}
    (h : kv ∈ sanitizeHeaders headers) :
    (kv ∈ headers ∧ kv.1 ≠ "authorization" ∧ kv.1 ≠ "Authorization") ∨
      kv = ("content-type", "application/json") := by
  simp only [sanitizeHeaders] at h
  split at h
  · rcases mem_dictPop.mp h with ⟨h1, hne2⟩
    rcases mem_dictPop.mp h1 with ⟨h0, hne1⟩
    exact Or.inl ⟨h0, hne1, hne2⟩
  · rename_i hc
    rw [dictInsert_of_not_contains (Bool.not_eq_true _ ▸ hc)] at h
    rcases List.mem_append.mp h with hmem | hmem
    · rcases mem_dictPop.mp hmem with ⟨h1, hne2⟩
      rcases mem_dictPop.mp h1 with ⟨h0, hne1⟩
      exact Or.inl ⟨h0, hne1, hne2⟩
    · exact Or.inr (List.mem_singleton.mp hmem)

/-! ## Claim theorems -/

/-- C1: the classifier returns `streaming` exactly on bodies that parse to a
JSON object with a `function_call` object field whose `name` field is the
string `search_code`; every other parse outcome — unparsable (`none`),
non-object JSON, missing or mis-shaped `function_call`, or a different
name — is non-streaming.  Totality (classification never raises) is
inherent: `classify` is a total function on all parse outcomes. -/
theorem classify_streaming_iff (parsed : Option JsonVal) :
    classify parsed = true ↔
      ∃ fields fc, parsed = some (JsonVal.obj fields) ∧
        List.lookup "function_call" fields = some (JsonVal.obj fc) ∧
        List.lookup "name" fc = some (JsonVal.str "search_code") := by
  cases parsed with
  | none => simp [classify]
  | some v =>
    cases v with
    | obj fields =>
      cases hfc : List.lookup "function_call" fields with
      | none => simp [classify, hfc]
      | some fcv =>
        cases fcv with
        | obj fc =>
          cases hn : List.lookup "name" fc with
          | none => simp [classify, hfc, hn]
          | some nv =>
            cases nv with
            | str s => simp [classify, hfc, hn]
            | null => simp [classify, hfc, hn]
            | bool b => simp [classify, hfc, hn]
            | num n => simp [classify, hfc, hn]
            | arr xs => simp [classify, hfc, hn]
            | obj fs => simp [classify, hfc, hn]
        | null => simp [classify, hfc]
        | bool b => simp [classify, hfc]
        | num n => simp [classify, hfc]
        | str s => simp [classify, hfc]
        | arr xs => simp [classify, hfc]
    | null => simp [classify]
    | bool b => simp [classify]
    | num n => simp [classify]
    | str s => simp [classify]
    | arr xs => simp [classify]

/-- C2: for an inbound header mapping as produced by
`dict(request.headers.items())` (ASGI delivers header names lowercased, so
every inbound key equals its own ASCII lowercasing), the sanitized outbound
mapping has no key matching `authorization` under any casing, always has a
`content-type` key, and defaults it to `application/json` when the inbound
mapping had none.  `sanitizeHeaders` is a total Lean function, so
sanitization has no failure mode. -/
theorem sanitizeHeaders_spec (headers : List (String × String))
    (hlc : ∀ kv ∈ headers, strLower kv.1 = kv.1) :
    (∀ kv ∈ sanitizeHeaders headers, strLower kv.1 ≠ "authorization") ∧
    dictContains (sanitizeHeaders headers) "content-type" = true ∧
    (dictContains headers "content-type" = false →
      dictLookup (sanitizeHeaders headers) "content-type" = some "application/json") := by
  refine ⟨?_, ?_, ?_⟩
  · intro kv hkv hlow
    rcases mem_sanitizeHeaders hkv with ⟨hmem, hne1, _⟩ | heq
    · exact hne1 ((hlc kv hmem).symm.trans hlow)
    · rw [heq] at hlow
      exact absurd hlow (by decide)
  · simp only [sanitizeHeaders]
    split
    · rename_i hc
      exact hc
    · rename_i hc
      rw [dictInsert_of_not_contains (Bool.not_eq_true _ ▸ hc)]
      simp [dictContains]
  · intro hno
    have h2 : dictContains (dictPop (dictPop headers "authorization") "Authorization")
        "content-type" = false :=
      dictContains_dictPop_false (dictContains_dictPop_false hno)
    simp only [sanitizeHeaders]
    rw [if_neg (by rw [h2]; exact Bool.false_ne_true)]
    rw [dictInsert_of_not_contains h2]
    exact dictLookup_append_self h2

/-- Witness for C2 at a concrete inbound mapping carrying an
`authorization` header and no `content-type`. -/
theorem sanitizeHeaders_spec_witness :
    (∀ kv ∈ sanitizeHeaders [("authorization", "Bearer abc"), ("accept", "text/plain")],
        strLower kv.1 ≠ "authorization") ∧
    dictContains (sanitizeHeaders [("authorization", "Bearer abc"), ("accept", "text/plain")])
      "content-type" = true ∧
    (dictContains [("authorization", "Bearer abc"), ("accept", "text/plain")]
        "content-type" = false →
      dictLookup (sanitizeHeaders [("authorization", "Bearer abc"), ("accept", "text/plain")])
        "content-type" = some "application/json") :=
  sanitizeHeaders_spec [("authorization", "Bearer abc"), ("accept", "text/plain")] (by decide)

theorem self_mem_dictInsert (d : List (String × String)) (k v : String) :
    (k, v) ∈ dictInsert d k v := by
  unfold dictInsert
  split
  · rename_i hany
    rcases List.any_eq_true.mp hany with ⟨p, hp, hpk⟩
    exact List.mem_map.mpr ⟨p, hp, by simp [hpk]⟩
  · exact List.mem_append.mpr (Or.inr (List.mem_singleton.mpr rfl))

theorem mem_dictInsert_of_ne {d : List (String × String)} {k v : String}
    {kv : String × String} (hne : kv.1 ≠ k) : kv ∈ dictInsert d k v ↔ kv ∈ d := by
  unfold dictInsert
  split
  · constructor
    · intro hm
      rcases List.mem_map.mp hm with ⟨p, hp, he⟩
      by_cases hpk : (p.1 == k) = true
      · rw [if_pos hpk] at he
        subst he
        exact absurd rfl hne
      · rw [if_neg hpk] at he
        rw [← he]
        exact hp
    · intro hm
      refine List.mem_map.mpr ⟨kv, hm, ?_⟩
      rw [if_neg (by simpa using hne)]
  · rw [List.mem_append]
    constructor
    · rintro (hm | hm)
      · exact hm
      · exact absurd (congrArg Prod.fst (List.mem_singleton.mp hm)) hne
    · exact fun hm => Or.inl hm

theorem forceCors_origin (h : List (String × String)) :
    ("Access-Control-Allow-Origin", "*") ∈ forceCors h := by
  unfold forceCors
  exact (mem_dictInsert_of_ne (by decide)).mpr (self_mem_dictInsert _ _ _)

theorem forceCors_credentials (h : List (String × String)) :
    ("Access-Control-Allow-Credentials", "false") ∈ forceCors h :=
  self_mem_dictInsert _ _ _

/-- C3: both exception branches of the `proxy` handler — `httpx.RequestError`
(transport failure) and any other exception — produce status 500, a JSON
body that is exactly an object with a single `error` field holding a
description, and both forced CORS headers.  `proxyResult` is a total
function of the outcome, which is the embedding's statement that no
exception escapes the handler boundary to the inbound caller. -/
theorem proxy_failure_response (m : String) :
    ((proxyResult (UpstreamOutcome.transportError m)).status = 500 ∧
      (∃ d, (proxyResult (UpstreamOutcome.transportError m)).bodyJson =
        JsonVal.obj [("error", JsonVal.str d)]) ∧
      ("Access-Control-Allow-Origin", "*") ∈
        (proxyResult (UpstreamOutcome.transportError m)).headers ∧
      ("Access-Control-Allow-Credentials", "false") ∈
        (proxyResult (UpstreamOutcome.transportError m)).headers) ∧
    ((proxyResult (UpstreamOutcome.unexpectedError m)).status = 500 ∧
      (∃ d, (proxyResult (UpstreamOutcome.unexpectedError m)).bodyJson =
        JsonVal.obj [("error", JsonVal.str d)]) ∧
      ("Access-Control-Allow-Origin", "*") ∈
        (proxyResult (UpstreamOutcome.unexpectedError m)).headers ∧
      ("Access-Control-Allow-Credentials", "false") ∈
        (proxyResult (UpstreamOutcome.unexpectedError m)).headers) := by
  refine ⟨⟨rfl, ⟨_, rfl⟩, ?_, ?_⟩, ⟨rfl, ⟨_, rfl⟩, ?_, ?_⟩⟩ <;> simp [proxyResult]

/-- C5 counterexample: with upstream status 200 and the valid JSON body
`[]`, the claim says the relayed body is exactly the decoded value, but the
code (`content if content else ...`, line 426) relays the empty object
instead. -/
theorem relay_nonstreaming_exact_counterexample :
    (proxyResult (UpstreamOutcome.success 200 []
      (some (JsonVal.arr [])) "[]")).bodyJson ≠ JsonVal.arr [] := by
  simp [proxyResult, relayNonStreaming, JsonVal.truthy]

/-- C5 amended: for a successful non-streaming upstream response, the
relayed status mirrors upstream and the forced CORS origin header is
attached; when the body decodes to a truthy JSON value the relayed body is
exactly that value, and when the body is not valid JSON the relayed body is
the object with single field `raw_response` holding the body text (falsy
JSON decodes are replaced by the empty object, see C9). -/
theorem relay_nonstreaming_amended (s : Nat) (h : List (String × String))
    (v : JsonVal) (t : String) :
    (proxyResult (UpstreamOutcome.success s h (some v) t)).status = s ∧
    (v.truthy = true →
      (proxyResult (UpstreamOutcome.success s h (some v) t)).bodyJson = v) ∧
    (proxyResult (UpstreamOutcome.success s h none t)).bodyJson =
      JsonVal.obj [("raw_response", JsonVal.str t)] ∧
    ("Access-Control-Allow-Origin", "*") ∈
      (proxyResult (UpstreamOutcome.success s h (some v) t)).headers := by
  refine ⟨rfl, ?_, ?_, forceCors_origin h⟩
  · intro hv
    simp [proxyResult, relayNonStreaming, hv]
  · simp [proxyResult, relayNonStreaming, JsonVal.truthy]

/-- Witness for C5 (amended) at the spec's own example: upstream 200 with
body decoding to the truthy object with field `result` holding 1. -/
theorem relay_nonstreaming_amended_witness :
    (JsonVal.obj [("result", JsonVal.num 1)]).truthy = true ∧
    (proxyResult (UpstreamOutcome.success 200 []
        (some (JsonVal.obj [("result", JsonVal.num 1)])) "")).bodyJson =
      JsonVal.obj [("result", JsonVal.num 1)] :=
  ⟨rfl, (relay_nonstreaming_amended 200 [] (JsonVal.obj [("result", JsonVal.num 1)]) "").2.1 rfl⟩

/-- C9: a successful non-streaming upstream response whose body decodes to a
falsy JSON value — empty object, empty array, 0, false, null, or the empty
string — is relayed with exactly the empty object as its body. -/
theorem relay_falsy_body (s : Nat) (h : List (String × String)) (t : String)
    (v : JsonVal)
    (hv : v = JsonVal.obj [] ∨ v = JsonVal.arr [] ∨ v = JsonVal.num 0 ∨
      v = JsonVal.bool false ∨ v = JsonVal.null ∨ v = JsonVal.str "") :
    (proxyResult (UpstreamOutcome.success s h (some v) t)).bodyJson =
      JsonVal.obj [] := by
  rcases hv with rfl | rfl | rfl | rfl | rfl | rfl <;>
    simp [proxyResult, relayNonStreaming, JsonVal.truthy]

/-- Witness for C9 at upstream body decoding to the empty array. -/
theorem relay_falsy_body_witness :
    (JsonVal.arr [] = JsonVal.obj [] ∨ JsonVal.arr [] = JsonVal.arr [] ∨
      JsonVal.arr [] = JsonVal.num 0 ∨ JsonVal.arr [] = JsonVal.bool false ∨
      JsonVal.arr [] = JsonVal.null ∨ JsonVal.arr [] = JsonVal.str "") ∧
    (proxyResult (UpstreamOutcome.success 204 [] (some (JsonVal.arr []))
      "ignored")).bodyJson = JsonVal.obj [] :=
  ⟨Or.inr (Or.inl rfl),
   relay_falsy_body 204 [] "ignored" (JsonVal.arr []) (Or.inr (Or.inl rfl))⟩

/-- C6: the basic-auth pair attached to the outbound upstream call is always
the fixed relay-to-upstream pair — username `serena` with the configured
password (defaulting to `password123`) — so it is identical for any two
inbound requests under the same configuration, independent of any header,
body or credential the client sent. -/
theorem route_auth_fixed (parse : List Nat → Option JsonVal) (cfg : Config)
    (r1 r2 : InboundRequest) :
    (route parse cfg r1).auth = ("serena", cfg.serenaPassword.getD "password123") ∧
    (route parse cfg r1).auth = (route parse cfg r2).auth :=
  ⟨rfl, rfl⟩

/-- C8 counterexample: httpx presents upstream header keys lowercased in
`dict(response.headers.items())`, while the code assigns the forced values
under the mixed-case spellings, so an upstream-supplied
`access-control-allow-origin` entry survives in the outgoing mapping
alongside the forced one — contradicting the claim that no upstream-supplied
value for that key survives under any casing. -/
theorem forced_cors_override_counterexample :
    ("access-control-allow-origin", "https://evil.example") ∈
      (proxyResult (UpstreamOutcome.success 200
        [("access-control-allow-origin", "https://evil.example")]
        (some (JsonVal.obj [("ok", JsonVal.bool true)])) "")).headers := by
  decide

/-- C8 amended: every relayed response — buffered success, both failure
branches, and the streaming head — carries both forced CORS entries,
`Access-Control-Allow-Origin` with value `*` and
`Access-Control-Allow-Credentials` with value `false`, in its outgoing
header mapping; upstream-supplied values for those headers, which arrive
under lowercase keys, are however retained alongside rather than
overridden. -/
theorem forced_cors_always_present (o : UpstreamOutcome) (s : Nat)
    (upHeaders : List (String × String)) :
    ("Access-Control-Allow-Origin", "*") ∈ (proxyResult o).headers ∧
    ("Access-Control-Allow-Credentials", "false") ∈ (proxyResult o).headers ∧
    ("Access-Control-Allow-Origin", "*") ∈ (relayStreamingHead s upHeaders).headers ∧
    ("Access-Control-Allow-Credentials", "false") ∈
      (relayStreamingHead s upHeaders).headers := by
  refine ⟨?_, ?_, forceCors_origin upHeaders, forceCors_credentials upHeaders⟩
  · cases o with
    | success s2 h p t => exact forceCors_origin h
    | transportError m => simp [proxyResult]
    | unexpectedError m => simp [proxyResult]
  · cases o with
    | success s2 h p t => exact forceCors_credentials h
    | transportError m => simp [proxyResult]
    | unexpectedError m => simp [proxyResult]

/-- C10: routing is a pure function of endpoint path, header mapping and
body under a fixed configuration: two inbound requests agreeing on those
three fields (but possibly differing in attributes the handler never reads,
such as the client address) receive the same upstream URL, the same
sanitized header mapping, the same auth pair and the same streaming
classification. -/
theorem route_deterministic (parse : List Nat → Option JsonVal) (cfg : Config)
    (r1 r2 : InboundRequest) (he : r1.endpoint = r2.endpoint)
    (hh : r1.headers = r2.headers) (hb : r1.body = r2.body) :
    route parse cfg r1 = route parse cfg r2 := by
  simp [route, he, hh, hb]

/-- Witness for C10: two requests identical except for the client address
route identically. -/
theorem route_deterministic_witness :
    route (fun _ => none) ⟨"https://upstream.example", none⟩
        ⟨"find_symbol", [], [123], "10.0.0.1"⟩ =
      route (fun _ => none) ⟨"https://upstream.example", none⟩
        ⟨"find_symbol", [], [123], "10.0.0.2"⟩ :=
  route_deterministic (fun _ => none) ⟨"https://upstream.example", none⟩
    ⟨"find_symbol", [], [123], "10.0.0.1"⟩
    ⟨"find_symbol", [], [123], "10.0.0.2"⟩ rfl rfl rfl

/-- In the keepalive loop, events alternate with period two: from the
about-to-sleep substate the events are sleep, filler, sleep, filler, ...;
from the about-to-yield substate they are filler, sleep, filler, sleep, ... -/
theorem kaEvents_keepalive (j : Nat) :
    kaEvents KAState.sleepDue j =
      (if j % 2 = 0 then StreamEvent.sleep KEEP_ALIVE_INTERVAL
       else StreamEvent.chunk newlineChunk) ∧
    kaEvents KAState.fillerDue j =
      (if j % 2 = 0 then StreamEvent.chunk newlineChunk
       else StreamEvent.sleep KEEP_ALIVE_INTERVAL) := by
  induction j with
  | zero => exact ⟨rfl, rfl⟩
  | succ n ih =>
    refine ⟨?_, ?_⟩
    · show kaEvents KAState.fillerDue n = _
      rw [ih.2]
      rcases Nat.mod_two_eq_zero_or_one n with h | h <;>
        simp [h, Nat.add_mod]
    · show kaEvents KAState.sleepDue n = _
      rw [ih.1]
      rcases Nat.mod_two_eq_zero_or_one n with h | h <;>
        simp [h, Nat.add_mod]

/-- Closed form for the event sequence of `stream_with_keepalive` started on
a finite upstream chunk sequence: while upstream chunks remain they are
yielded in order; from exhaustion on, the filler byte and the fixed sleep
alternate forever. -/
theorem kaEvents_forwarding (chunks : List (List Nat)) :
    ∀ i, kaEvents (KAState.forwarding chunks) i =
      match chunks[i]? with
      | some c => StreamEvent.chunk c
      | none =>
          if (i - chunks.length) % 2 = 0 then StreamEvent.chunk newlineChunk
          else StreamEvent.sleep KEEP_ALIVE_INTERVAL := by
  induction chunks with
  | nil =>
    intro i
    cases i with
    | zero => rfl
    | succ n =>
      show kaEvents KAState.sleepDue n = _
      rw [(kaEvents_keepalive n).1]
      simp only [List.getElem?_nil, List.length_nil, Nat.sub_zero]
      rcases Nat.mod_two_eq_zero_or_one n with h | h <;>
        simp [h, Nat.add_mod]
  | cons c rest ih =>
    intro i
    cases i with
    | zero => simp [kaEvents, kaStep]
    | succ n =>
      show kaEvents (KAState.forwarding rest) n = _
      rw [ih n]
      simp only [List.getElem?_cons_succ, List.length_cons, Nat.succ_sub_succ]

/-- C4: the keepalive relay first yields every upstream chunk unchanged and
in order — for every index below the number of upstream chunks, the event at
that index is exactly that upstream chunk — and from upstream exhaustion on
it repeats forever the pair: emit the single newline filler byte, then sleep
the fixed 10-second interval.  Hence no filler byte is emitted before
exhaustion, and no upstream byte after the first filler. -/
theorem stream_with_keepalive_spec (chunks : List (List Nat)) (i j : Nat) :
    (∀ (hi : i < chunks.length),
      kaEvents (KAState.forwarding chunks) i =
        StreamEvent.chunk (chunks.get ⟨i, hi⟩)) ∧
    kaEvents (KAState.forwarding chunks) (chunks.length + 2 * j) =
      StreamEvent.chunk newlineChunk ∧
    kaEvents (KAState.forwarding chunks) (chunks.length + 2 * j + 1) =
      StreamEvent.sleep KEEP_ALIVE_INTERVAL := by
  refine ⟨?_, ?_, ?_⟩
  · intro hi
    rw [kaEvents_forwarding]
    simp [List.getElem?_eq_getElem hi]
  · rw [kaEvents_forwarding]
    have h1 : chunks[chunks.length + 2 * j]? = none :=
      List.getElem?_eq_none (by omega)
    have h2 : (chunks.length + 2 * j - chunks.length) % 2 = 0 := by omega
    rw [h1]
    simp [h2]
  · rw [kaEvents_forwarding]
    have h1 : chunks[chunks.length + 2 * j + 1]? = none :=
      List.getElem?_eq_none (by omega)
    have h2 : (chunks.length + 2 * j + 1 - chunks.length) % 2 = 1 := by omega
    rw [h1]
    simp [h2]

/-- Witness for C4 on the one-chunk upstream sequence `hi` (bytes 104, 105):
event 0 is the upstream chunk, event 1 the first filler byte, event 2 the
10-second sleep. -/
theorem stream_with_keepalive_spec_witness :
    kaEvents (KAState.forwarding [[104, 105]]) 0 = StreamEvent.chunk [104, 105] ∧
    kaEvents (KAState.forwarding [[104, 105]]) 1 = StreamEvent.chunk newlineChunk ∧
    kaEvents (KAState.forwarding [[104, 105]]) 2 = StreamEvent.sleep KEEP_ALIVE_INTERVAL :=
  ⟨(stream_with_keepalive_spec [[104, 105]] 0 0).1 (by decide),
   (stream_with_keepalive_spec [[104, 105]] 0 0).2.1,
   (stream_with_keepalive_spec [[104, 105]] 0 0).2.2⟩

/-- C7 (code defect): a `search_code` body is classified as streaming, and
on the streaming branch the `async with` block closes the outbound httpx
client when `proxy` returns its `StreamingResponse` — strictly before the
server framework consumes the streamed body — so the outbound client
connection is not held open for the lifetime of the relayed response, and
the stream (including its keepalive phase) is cut off at the first body
read. -/
theorem streaming_client_scoping_bug :
    classify (some searchCodeBody) = true ∧
    List.indexOf ResEvent.closeClient streamingPathTrace <
      List.indexOf ResEvent.consumeBody streamingPathTrace := by
  exact ⟨rfl, by decide⟩
